import Mathlib

/-!
Verification development for the Numainda RAG pipeline
(document ingestion, chunking, embedding, similarity retrieval,
query-intent classification, and chat context assembly).

The definitions below are a shallow embedding of the TypeScript source:

* `lib/ai/embedding.ts` — `generateEmbeddings`, `findRelevantContent`,
  `findRelevantRepresentatives`, `detectQueryTypes`;
* `scripts/batch-ingest.ts` — `checkIfProcessed`, `ingestDocument`
  (document insert, chunking, batched embedding, embedding insert);
* `app/api/chat/route.ts` — the `POST` handler (last-message read,
  classifier call, parallel retriever fan-out via `Promise.all`,
  labeled context blocks joined with the provenance separator).

External collaborators (the OpenAI embedding/chat endpoints, `JSON.parse`,
the pgvector cosine-distance operator, the regex engine behind
`detectSection`/`detectTimestamp`, and id generation) are modelled as
explicit function parameters ("oracles"): the code under verification is
exactly the logic the repository itself contains around those calls.
The Postgres store is modelled as an in-memory list of rows in insertion
order; `WHERE` / `ORDER BY ... DESC` / `LIMIT` are modelled as filter,
descending stable sort and prefix truncation.
-/

/-- Entity-type tags returned by the query classifier
(`'representative' | 'bill' | 'document'` in `detectQueryTypes`). -/
inductive QueryType
  | representative
  | bill
  | document
deriving DecidableEq, Repr

/-- Parsed JSON values, the possible results of the external `JSON.parse`
applied to the classifier model's raw text output.  `JSON.parse` itself is a
JavaScript builtin; `detectQueryTypes` below consumes its outcome
(`none` models a parse exception). -/
inductive Json
  | null
  | bool (b : Bool)
  | num (n : Int)
  | str (s : String)
  | arr (items : List Json)
  | obj (fields : List (String × Json))

/-- Metadata bag attached to a chunk before embedding
(`{ pageNumber, section, timestamp }` in the ingestion scripts).
The source key `section` is renamed `sectionLabel` (Lean keyword). -/
structure Metadata where
  pageNumber : Nat
  sectionLabel : Option String
  timestamp : Option String
deriving DecidableEq

/-- Input of `generateEmbeddings`: `{ pageContent, metadata }`. -/
structure Chunk where
  pageContent : String
  metadata : Metadata
deriving DecidableEq

/-- One element of the array returned by `generateEmbeddings`:
`{ content, embedding, metadata }`.  Vectors are lists of rationals. -/
structure EmbeddedChunk where
  content : String
  embedding : List ℚ
  metadata : Metadata
deriving DecidableEq

/-- `generateEmbeddings` from `lib/ai/embedding.ts` (lines 26-39): one call
to the embedding provider on `chunk.pageContent`, then the result wrapped in
a one-element array carrying the content and metadata through unchanged.
The provider call `embed({model, value})` is the `oracle` parameter; an
`Except.error` models the awaited promise rejecting. -/
def generateEmbeddings {ε : Type} (oracle : String → Except ε (List ℚ))
    (chunk : Chunk) : Except ε (List EmbeddedChunk) :=
  match oracle chunk.pageContent with
  | Except.error e => Except.error e
  | Except.ok v =>
      Except.ok [{ content := chunk.pageContent, embedding := v,
                   metadata := chunk.metadata }]

/-- Modelled from the spec: the document chunker.  The repository delegates
chunking to `RecursiveCharacterTextSplitter({chunkSize: 1500,
chunkOverlap: 300, separators: ["\n\n","\n",".","!","?",","," ",""]})`,
a library whose code is not part of this repository.  The spec (section 4.1)
pins the behaviour down for texts with no detectable separators: fixed-width
character cuts of `chunkSize` with `overlap` characters duplicated between
consecutive chunks, tiling the source with no data loss, and a single chunk
for texts no longer than `chunkSize`.  `chunkGo` is that fixed-width cut;
the fuel argument (instantiated with the text length) only forces
termination and is never exhausted when `overlap < chunkSize`. -/
def chunkGo {α : Type} (chunkSize overlap : Nat) : Nat → List α → List (List α)
  | 0, text => [text]
  | fuel + 1, text =>
      if text.length ≤ chunkSize then [text]
      else text.take chunkSize ::
        chunkGo chunkSize overlap fuel (text.drop (chunkSize - overlap))

/-- Modelled from the spec: chunk a text into fixed-width cuts of
`chunkSize` with `overlap` duplicated characters (see `chunkGo`). -/
def chunkText {α : Type} (chunkSize overlap : Nat) (text : List α) :
    List (List α) :=
  chunkGo chunkSize overlap text.length text

/-- Concatenate chunks with the declared inter-chunk overlap spans removed:
the first chunk whole, every later chunk with its first `overlap`
characters (the span duplicated from its predecessor) dropped. -/
def dropOverlaps {α : Type} (overlap : Nat) : List (List α) → List α
  | [] => []
  | c :: rest => c ++ (rest.map (List.drop overlap)).flatten

/-- The valid-tag filter inside `detectQueryTypes`:
`parsed.filter(t => t === 'representative' || t === 'bill' ||
t === 'document')`.  Non-string JSON elements never compare equal to a
string in JavaScript, so they are dropped. -/
def validTags (items : List Json) : List QueryType :=
  items.filterMap fun j =>
    match j with
    | Json.str "representative" => some QueryType.representative
    | Json.str "bill" => some QueryType.bill
    | Json.str "document" => some QueryType.document
    | _ => none

/-- `detectQueryTypes` from `lib/ai/embedding.ts` (lines 126-181), after the
LLM call: `parseOutcome` is the result of `JSON.parse` on the model's text
(`none` = the parse threw).  If the parse produced a non-empty array
containing at least one valid tag string, the valid tags are returned;
every other outcome falls back to `['document']`. -/
def detectQueryTypes (parseOutcome : Option Json) : List QueryType :=
  match parseOutcome with
  | some (Json.arr items) =>
      if items.length > 0 then
        let valid := validTags items
        if valid.length > 0 then valid else [QueryType.document]
      else [QueryType.document]
  | _ => [QueryType.document]

/-- A row of the `documents` table: id, title, type, full text content and
original file name (the columns `ingestDocument` writes and
`checkIfProcessed` / `findRelevantContent` read). -/
structure DocumentRow where
  id : String
  title : String
  dtype : String
  content : String
  originalFileName : String
deriving DecidableEq

/-- A row of the `embeddings` table: id, owning document id (`resource_id`),
chunk content, vector and metadata. -/
structure EmbeddingRow where
  id : String
  resourceId : String
  content : String
  embedding : List ℚ
  metadata : Metadata
deriving DecidableEq

/-- A row of the `representatives` table (the columns selected by
`findRelevantRepresentatives`; nullable columns are `Option`). -/
structure RepresentativeRow where
  id : String
  nameClean : String
  constituency : String
  constituencyCode : String
  constituencyName : Option String
  district : Option String
  province : Option String
  party : String
  phone : Option String
  permanentAddress : Option String
  islamabadAddress : Option String
deriving DecidableEq

/-- A row of the `representative_embeddings` table. -/
structure RepEmbeddingRow where
  id : String
  representativeId : String
  content : String
  embedding : List ℚ
deriving DecidableEq

/-- The persistent state touched by ingestion: the `documents` and
`embeddings` tables, as lists of rows in insertion order. -/
structure DbState where
  documents : List DocumentRow
  chunkEmbeddings : List EmbeddingRow
deriving DecidableEq

/-- Pair every element of a list with its position, starting at `n`. -/
def withIdxFrom {α : Type} (n : Nat) : List α → List (Nat × α)
  | [] => []
  | a :: l => (n, a) :: withIdxFrom (n + 1) l

/-- Pair every element of a list with its position (insertion order). -/
def withIdx {α : Type} (l : List α) : List (Nat × α) :=
  withIdxFrom 0 l

/-- The ordering used to model `ORDER BY similarity DESC` over scored rows
`(insertion index, row, similarity)`: strictly greater similarity first,
equal similarities in insertion order.  The tie rule is modelled from the
spec ("ties broken by insertion order (stable sort)"); the SQL engine
executing the query is an external collaborator. -/
def rankRel {α : Type} (a b : Nat × α × ℚ) : Prop :=
  b.2.2 < a.2.2 ∨ (a.2.2 = b.2.2 ∧ a.1 ≤ b.1)

instance {α : Type} : DecidableRel (rankRel (α := α)) := fun a b =>
  inferInstanceAs (Decidable (b.2.2 < a.2.2 ∨ (a.2.2 = b.2.2 ∧ a.1 ≤ b.1)))

instance {α : Type} : IsTotal (Nat × α × ℚ) rankRel where
  total a b := by
    rcases lt_trichotomy a.2.2 b.2.2 with h | h | h
    · exact Or.inr (Or.inl h)
    · rcases Nat.le_total a.1 b.1 with h2 | h2
      · exact Or.inl (Or.inr ⟨h, h2⟩)
      · exact Or.inr (Or.inr ⟨h.symm, h2⟩)
    · exact Or.inl (Or.inl h)

instance {α : Type} : IsTrans (Nat × α × ℚ) rankRel where
  trans _ _ _ hab hbc := by
    rcases hab with hab | ⟨hab, hab2⟩
    · rcases hbc with hbc | ⟨hbc, _⟩
      · exact Or.inl (lt_trans hbc hab)
      · exact Or.inl (hbc ▸ hab)
    · rcases hbc with hbc | ⟨hbc, hbc2⟩
      · exact Or.inl (hab ▸ hbc)
      · exact Or.inr ⟨hab.trans hbc, hab2.trans hbc2⟩

/-- Score every stored row against the query vector, in insertion order:
`similarity = 1 - dist(row.embedding, query)`, mirroring
`sql\x7b1 - (cosineDistance(embeddings.embedding, queryEmbedding))\x7d`.
The pgvector cosine-distance operator is the external `dist` parameter. -/
def scoredRows {α : Type} (emb : α → List ℚ) (dist : List ℚ → List ℚ → ℚ)
    (q : List ℚ) (store : List α) : List (Nat × α × ℚ) :=
  (withIdx store).map fun p => (p.1, p.2, 1 - dist (emb p.2) q)

/-- The retrieval core shared by both entity types, modelling
`.where(gt(similarity, θ)).orderBy(desc(similarity)).limit(k)`:
keep rows with similarity strictly above `θ`, sort by descending
similarity (ties in insertion order, see `rankRel`), truncate to `k`. -/
def rankedRows {α : Type} (emb : α → List ℚ) (dist : List ℚ → List ℚ → ℚ)
    (q : List ℚ) (store : List α) (θ : ℚ) (k : Nat) : List (Nat × α × ℚ) :=
  (List.insertionSort rankRel
    ((scoredRows emb dist q store).filter fun t => decide (θ < t.2.2))).take k

/-- Output row shape of `findRelevantContent`: content, similarity and the
left-joined document columns (null when the join finds no parent). -/
structure ContentResult where
  content : String
  similarity : ℚ
  documentTitle : Option String
  documentType : Option String
  pageNumber : Nat
  sectionLabel : Option String
deriving DecidableEq

/-- Build one `findRelevantContent` output row from a ranked row, with the
`leftJoin(documents, eq(embeddings.resourceId, documents.id))` columns. -/
def toContentResult (docs : List DocumentRow) (t : Nat × EmbeddingRow × ℚ) :
    ContentResult :=
  let doc := docs.find? fun d => d.id == t.2.1.resourceId
  { content := t.2.1.content
    similarity := t.2.2
    documentTitle := doc.map DocumentRow.title
    documentType := doc.map DocumentRow.dtype
    pageNumber := t.2.1.metadata.pageNumber
    sectionLabel := t.2.1.metadata.sectionLabel }

/-- `findRelevantContent` from `lib/ai/embedding.ts` (lines 41-78): embed the
user query via `generateEmbeddings` (taking element `[0]` of its one-element
result), then select content/similarity plus joined document columns from
the `embeddings` table where similarity is strictly above `0.75`, ordered by
descending similarity, limited to `6` rows. -/
def findRelevantContent {ε : Type} (oracle : String → Except ε (List ℚ))
    (dist : List ℚ → List ℚ → ℚ) (docs : List DocumentRow)
    (store : List EmbeddingRow) (userQuery : String) :
    Except ε (List ContentResult) :=
  match generateEmbeddings oracle
      { pageContent := userQuery,
        metadata := { pageNumber := 1, sectionLabel := none,
                      timestamp := none } } with
  | Except.error e => Except.error e
  | Except.ok embedded =>
      let q := (embedded.map EmbeddedChunk.embedding).headI
      Except.ok
        ((rankedRows EmbeddingRow.embedding dist q store (3/4) 6).map
          (toContentResult docs))

/-- Output row shape of `findRelevantRepresentatives`: the left-joined
representative columns (null when the join finds no parent), the embedded
content and the similarity. -/
structure RepResult where
  name : Option String
  constituency : Option String
  constituencyCode : Option String
  constituencyName : Option String
  district : Option String
  province : Option String
  party : Option String
  phone : Option String
  permanentAddress : Option String
  islamabadAddress : Option String
  content : String
  similarity : ℚ
deriving DecidableEq

/-- Build one `findRelevantRepresentatives` output row from a ranked row,
with the `leftJoin(representatives, ...)` columns. -/
def toRepResult (reps : List RepresentativeRow)
    (t : Nat × RepEmbeddingRow × ℚ) : RepResult :=
  let rep := reps.find? fun r => r.id == t.2.1.representativeId
  { name := rep.map RepresentativeRow.nameClean
    constituency := rep.map RepresentativeRow.constituency
    constituencyCode := rep.map RepresentativeRow.constituencyCode
    constituencyName := rep.bind RepresentativeRow.constituencyName
    district := rep.bind RepresentativeRow.district
    province := rep.bind RepresentativeRow.province
    party := rep.map RepresentativeRow.party
    phone := rep.bind RepresentativeRow.phone
    permanentAddress := rep.bind RepresentativeRow.permanentAddress
    islamabadAddress := rep.bind RepresentativeRow.islamabadAddress
    content := t.2.1.content
    similarity := t.2.2 }

/-- `findRelevantRepresentatives` from `lib/ai/embedding.ts` (lines 80-120):
like `findRelevantContent` but over the `representative_embeddings` table,
with threshold `0.70` and limit `5`. -/
def findRelevantRepresentatives {ε : Type}
    (oracle : String → Except ε (List ℚ)) (dist : List ℚ → List ℚ → ℚ)
    (reps : List RepresentativeRow) (store : List RepEmbeddingRow)
    (userQuery : String) : Except ε (List RepResult) :=
  match generateEmbeddings oracle
      { pageContent := userQuery,
        metadata := { pageNumber := 1, sectionLabel := none,
                      timestamp := none } } with
  | Except.error e => Except.error e
  | Except.ok embedded =>
      let q := (embedded.map EmbeddedChunk.embedding).headI
      Except.ok
        ((rankedRows RepEmbeddingRow.embedding dist q store (7/10) 5).map
          (toRepResult reps))

/-- Sequence a list of promise outcomes, modelling `Promise.all`: the first
rejection rejects the whole combination, otherwise all values are collected
in order. -/
def promiseAll {ε α : Type} : List (Except ε α) → Except ε (List α)
  | [] => Except.ok []
  | p :: ps =>
      match p with
      | Except.error e => Except.error e
      | Except.ok a =>
          match promiseAll ps with
          | Except.error e => Except.error e
          | Except.ok as => Except.ok (a :: as)

/-- Group a list into consecutive batches of size `n`, modelling the
`for (let i = 0; i < chunks.length; i += batchSize)` loop of
`ingestDocument` (fuel forces termination; with `0 < n` and fuel at least
the list length it is never exhausted). -/
def batched {α : Type} (n : Nat) (l : List α) : List (List α) :=
  go l.length l
where
  go : Nat → List α → List (List α)
    | _, [] => []
    | 0, l2 => [l2]
    | fuel + 1, l2 => l2.take n :: go fuel (l2.drop n)

/-- `checkIfProcessed` from `scripts/batch-ingest.ts` (lines 233-241):
does a `documents` row with this `original_file_name` exist? -/
def checkIfProcessed (st : DbState) (fileName : String) : Bool :=
  st.documents.any fun d => d.originalFileName == fileName

/-- Chunk a document text with the splitter configuration of
`ingestDocument` (`chunkSize: 1500, chunkOverlap: 300`), as strings. -/
def chunkStrings (text : String) : List String :=
  (chunkText 1500 300 text.data).map List.asString

/-- Embed one chunk during ingestion: `generateEmbeddings` on the chunk
text with metadata `{pageNumber: chunk.metadata.pageNumber || 1,
section: detectSection(...), timestamp: detectTimestamp(...)}`.  The
splitter attaches no `pageNumber`, so `|| 1` always yields `1`; the two
regex detectors are the external parameters `sectionOf` / `timestampOf`. -/
def embedChunk {ε : Type} (oracle : String → Except ε (List ℚ))
    (sectionOf timestampOf : String → Option String) (c : String) :
    Except ε (List EmbeddedChunk) :=
  generateEmbeddings oracle
    { pageContent := c,
      metadata := { pageNumber := 1, sectionLabel := sectionOf c,
                    timestamp := timestampOf c } }

/-- The embedding phase of `ingestDocument` (lines 290-316): process chunks
in batches of `5`, each batch as a `Promise.all` of `generateEmbeddings`
calls, accumulating the per-chunk one-element arrays; any rejection aborts
the loop with nothing persisted.  The inter-batch `setTimeout` delay has no
persistence effect and is not modelled. -/
def embedPhase {ε : Type} (oracle : String → Except ε (List ℚ))
    (sectionOf timestampOf : String → Option String) (chunks : List String) :
    Except ε (List (List EmbeddedChunk)) :=
  go (batched 5 chunks)
where
  go : List (List String) → Except ε (List (List EmbeddedChunk))
    | [] => Except.ok []
    | b :: bs =>
        match promiseAll (b.map (embedChunk oracle sectionOf timestampOf)) with
        | Except.error e => Except.error e
        | Except.ok rs =>
            match go bs with
            | Except.error e => Except.error e
            | Except.ok rest => Except.ok (rs ++ rest)

/-- Outcome of `ingestDocument`: either skipped (already processed) or the
document id plus the number of embedding records written. -/
inductive IngestOutcome
  | skipped
  | ingested (documentId : String) (embeddingCount : Nat)
deriving DecidableEq

/-- `ingestDocument` from `scripts/batch-ingest.ts` (lines 243-367),
restricted to the tables in `DbState`.  Order of effects, as in the source:
optional skip-existing check; **insert the `documents` row** (lines
269-277); split into chunks (1500/300); run the batched embedding phase;
only then bulk-insert all `embeddings` rows (lines 319-327).  A rejection
during the embedding phase aborts the function after the document insert
and before the embeddings insert, so the returned state keeps the new
`documents` row and gains no `embeddings` rows.  Text extraction and id
generation (`nanoid`) are external (`text`, `docId`, `embId`); the
bill/proceeding summary steps touch tables outside `DbState`. -/
def ingestDocument {ε : Type} (oracle : String → Except ε (List ℚ))
    (sectionOf timestampOf : String → Option String) (docId : String)
    (embId : Nat → String) (title dtype fileName text : String)
    (skipExisting : Bool) (st : DbState) :
    DbState × Except ε IngestOutcome :=
  if skipExisting && checkIfProcessed st fileName then
    (st, Except.ok IngestOutcome.skipped)
  else
    let docRow : DocumentRow :=
      { id := docId, title := title, dtype := dtype, content := text,
        originalFileName := fileName }
    let st1 : DbState := { st with documents := st.documents ++ [docRow] }
    let chunks := chunkStrings text
    match embedPhase oracle sectionOf timestampOf chunks with
    | Except.error e => (st1, Except.error e)
    | Except.ok batchesOut =>
        let rows := batchesOut.flatten
        let newRows := (withIdx rows).map fun p =>
          { id := embId p.1, resourceId := docId, content := p.2.content,
            embedding := p.2.embedding, metadata := p.2.metadata :
            EmbeddingRow }
        ({ st1 with
            chunkEmbeddings := st1.chunkEmbeddings ++ newRows },
         Except.ok (IngestOutcome.ingested docId rows.length))

/-- One element of the `results` array in the chat `POST` handler: a tagged
result set from one retriever (`{type: 'representative', data}` or
`{type: 'document', data}`). -/
inductive SearchOutcome
  | representative (data : List RepResult)
  | document (data : List ContentResult)
deriving DecidableEq

/-- Errors a Next.js route handler can surface in the modelled fragment:
the `TypeError` from reading `.content` of `undefined`, or a rejected
retriever promise propagated by `Promise.all`. -/
inductive JsError
  | typeError
  | providerFailure
deriving DecidableEq

/-- The retriever fan-out of the `POST` handler (lines 81-102): push a
representative search when the tags include `representative`, push a
document search when they include `bill` or `document`, then
`Promise.all`.  The two retriever calls are passed in as their outcomes
(they are awaited promises over the database and embedding provider). -/
def gatherSearchResults (queryTypes : List QueryType)
    (repSearch : Except JsError (List RepResult))
    (docSearch : Except JsError (List ContentResult)) :
    Except JsError (List SearchOutcome) :=
  promiseAll
    ((if queryTypes.contains QueryType.representative then
        [repSearch.map SearchOutcome.representative]
      else []) ++
     (if queryTypes.contains QueryType.bill ||
         queryTypes.contains QueryType.document then
        [docSearch.map SearchOutcome.document]
      else []))

/-- JavaScript template interpolation of a nullable string:
`null` renders as the text `"null"`. -/
def jsStr (o : Option String) : String :=
  match o with
  | some s => s
  | none => "null"

/-- JavaScript truthiness for nullable strings: `null`, `undefined` and
the empty string are falsy. -/
def jsTruthy (o : Option String) : Bool :=
  match o with
  | some s => !(s == "")
  | none => false

/-- JavaScript `a || b` on two nullable strings. -/
def jsOrOpt (a b : Option String) : Option String :=
  if jsTruthy a then a else b

/-- JavaScript `a || "dflt"` on a nullable string. -/
def jsOrStr (a : Option String) (dflt : String) : String :=
  if jsTruthy a then jsStr a else dflt

/-- The representative block line layout of the `POST` handler
(lines 108-117). -/
def formatRep (r : RepResult) : String :=
  "Representative: " ++ jsStr r.name ++
  "\nConstituency: " ++ jsStr r.constituencyCode ++ " - " ++
    jsStr (jsOrOpt r.constituencyName r.constituency) ++
  "\nDistrict: " ++ jsOrStr r.district "N/A" ++
  "\nProvince: " ++ jsStr r.province ++
  "\nParty: " ++ jsStr r.party ++
  "\nPhone: " ++ jsOrStr r.phone "Not available" ++
  "\nPermanent Address: " ++ jsOrStr r.permanentAddress "Not available" ++
  "\nIslamabad Address: " ++ jsOrStr r.islamabadAddress "Not available" ++
  "\n---"

/-- The document block line layout of the `POST` handler (lines 125-129). -/
def formatDoc (c : ContentResult) : String :=
  "Document: " ++ jsStr c.documentTitle ++
  "\nType: " ++ jsStr c.documentType ++
  "\nContent: " ++ c.content ++
  "\n---"

/-- JavaScript `Array.prototype.join(sep)`. -/
def joinSep (sep : String) : List String → String
  | [] => ""
  | [s] => s
  | s :: rest => s ++ sep ++ joinSep sep rest

/-- The per-result context block of the `POST` handler formatting loop
(lines 105-134): a result whose data is empty pushes nothing onto
`contextParts`; a non-empty result pushes its entries formatted and joined
with a blank line. -/
def contextBlock : SearchOutcome → Option String
  | SearchOutcome.representative data =>
      if data.length > 0 then some (joinSep "\n\n" (data.map formatRep))
      else none
  | SearchOutcome.document data =>
      if data.length > 0 then some (joinSep "\n\n" (data.map formatDoc))
      else none

/-- `contextString` of the `POST` handler (line 136): the non-empty blocks
joined with the provenance separator. -/
def contextString (results : List SearchOutcome) : String :=
  joinSep "\n\n=== DIFFERENT SOURCE TYPE ===\n\n"
    (results.filterMap contextBlock)

/-- One entry of the `messages` conversation history. -/
structure ChatMessage where
  role : String
  content : String
deriving DecidableEq

/-- The chat `POST` handler from `app/api/chat/route.ts` (lines 69-136), up
to the assembled grounding context handed to `streamText`.  The handler
reads `messages[messages.length - 1]` with no emptiness guard: on an empty
history that element is `undefined` and `.content` throws a `TypeError`.
The classifier LLM response parse and the two retrievers are oracles keyed
by the active query text. -/
def POST (parseOutcome : String → Option Json)
    (repSearch : String → Except JsError (List RepResult))
    (docSearch : String → Except JsError (List ContentResult))
    (messages : List ChatMessage) : Except JsError String :=
  match messages.getLast? with
  | none => Except.error JsError.typeError
  | some lastMessage =>
      let queryTypes := detectQueryTypes (parseOutcome lastMessage.content)
      match gatherSearchResults queryTypes (repSearch lastMessage.content)
          (docSearch lastMessage.content) with
      | Except.error e => Except.error e
      | Except.ok results => Except.ok (contextString results)

/-- Constant-zero distance oracle for concrete test runs (all similarities
evaluate to `1`). -/
def dist0 : List ℚ → List ℚ → ℚ := fun _ _ => 0

/-- Embedding-provider oracle that succeeds with the vector `[1]`. -/
def okOracle1 : String → Except Unit (List ℚ) := fun _ => Except.ok [1]

/-- Embedding-provider oracle that always rejects. -/
def errOracle : String → Except Unit (List ℚ) := fun _ => Except.error ()

/-- Embedding-provider oracle that rejects exactly on the 500-character
final chunk of `failText` (so the first batch of five full-size chunks
succeeds and the second batch fails: a failure partway through the
embedding phase). -/
def failOracle : String → Except Unit (List ℚ) := fun s =>
  if s.length == 500 then Except.error () else Except.ok [1]

/-- A 6500-character text with no separators: it chunks into six
fixed-width cuts (five of 1500 characters, one of 500), hence two
embedding batches of sizes five and one. -/
def failText : String := String.mk (List.replicate 6500 'a')

/-- The empty database. -/
def emptyDb : DbState := { documents := [], chunkEmbeddings := [] }

/-- A stored document-chunk embedding row used in concrete runs. -/
def embRow0 : EmbeddingRow :=
  { id := "e0", resourceId := "d0", content := "c0", embedding := [1],
    metadata := { pageNumber := 1, sectionLabel := none, timestamp := none } }

/-- A second stored document-chunk embedding row. -/
def embRow1 : EmbeddingRow :=
  { id := "e1", resourceId := "d0", content := "c1", embedding := [1],
    metadata := { pageNumber := 1, sectionLabel := none, timestamp := none } }

/-- A stored representative embedding row used in concrete runs. -/
def repEmbRow0 : RepEmbeddingRow :=
  { id := "re0", representativeId := "r0", content := "rc0",
    embedding := [1] }

/-- The retrieval row produced from `embRow0` by a run over an empty
`documents` table with `dist0` (similarity `1`, joined columns null). -/
def contentRes0 : ContentResult :=
  { content := "c0", similarity := 1, documentTitle := none,
    documentType := none, pageNumber := 1, sectionLabel := none }

/-- The retrieval row produced from `repEmbRow0` by a run over an empty
`representatives` table with `dist0`. -/
def repRes0 : RepResult :=
  { name := none, constituency := none, constituencyCode := none,
    constituencyName := none, district := none, province := none,
    party := none, phone := none, permanentAddress := none,
    islamabadAddress := none, content := "rc0", similarity := 1 }

/-- Sample representative retrieval row for context-assembly runs. -/
def sampleRep : RepResult :=
  { name := some "Ali Khan", constituency := some "NA-1Peshawar-I",
    constituencyCode := some "NA-1", constituencyName := some "Peshawar-I",
    district := some "Peshawar", province := some "Khyber Pukhtunkhwa",
    party := some "PTI", phone := none, permanentAddress := none,
    islamabadAddress := none, content := "profile", similarity := 1 }

/-- Sample document retrieval row for context-assembly runs. -/
def sampleDoc : ContentResult :=
  { content := "Article 25 text", similarity := 1,
    documentTitle := some "Constitution", documentType := some "constitution",
    pageNumber := 3, sectionLabel := none }

/-- Constant-one distance oracle for concrete test runs (all similarities
evaluate to `0`, below every configured threshold). -/
def dist1 : List ℚ → List ℚ → ℚ := fun _ _ => 1

/-- The five full-size chunks of `failText`: 1500 characters each. -/
def s1500 : String := (List.replicate 1500 'a').asString

/-- The final short chunk of `failText`: 500 characters. -/
def s500 : String := (List.replicate 500 'a').asString

/-- Every classifier outcome is `[document]` except a parsed non-empty
array containing at least one valid tag, in which case the valid tags are
returned. -/
theorem detectQueryTypes_eq (p : Option Json) :
    detectQueryTypes p = [QueryType.document] ∨
    ∃ items, p = some (Json.arr items) ∧
      detectQueryTypes p = validTags items ∧ validTags items ≠ [] := by
  match p with
  | none => exact Or.inl rfl
  | some Json.null => exact Or.inl rfl
  | some (Json.bool b) => exact Or.inl rfl
  | some (Json.num n) => exact Or.inl rfl
  | some (Json.str s) => exact Or.inl rfl
  | some (Json.obj fs) => exact Or.inl rfl
  | some (Json.arr items) =>
      by_cases h1 : items.length > 0
      · by_cases h2 : (validTags items).length > 0
        · refine Or.inr ⟨items, rfl, ?_, ?_⟩
          · simp [detectQueryTypes, h1, h2]
          · intro hnil
            rw [hnil] at h2
            simp at h2
        · exact Or.inl (by simp [detectQueryTypes, h1, h2])
      · exact Or.inl (by simp [detectQueryTypes, h1])

/-- Claim C3: `detectQueryTypes` always returns a non-empty list of tags
drawn from the fixed enumeration `{representative, bill, document}`, and
for every model output that fails to parse as JSON, is not an array, is an
empty array, or contains no valid tag, it returns exactly the default tag
set `[document]`. -/
theorem detectQueryTypes_fallback_spec :
    (∀ p, detectQueryTypes p ≠ []) ∧
    (∀ p t, t ∈ detectQueryTypes p →
      t = QueryType.representative ∨ t = QueryType.bill ∨
        t = QueryType.document) ∧
    (∀ p, (p = none ∨
        (∃ items, p = some (Json.arr items) ∧ validTags items = []) ∨
        (∀ items, p ≠ some (Json.arr items))) →
      detectQueryTypes p = [QueryType.document]) := by
  refine ⟨?_, ?_, ?_⟩
  · intro p
    rcases detectQueryTypes_eq p with h | ⟨items, _, h2, h3⟩
    · rw [h]; simp
    · rw [h2]; exact h3
  · intro p t _
    cases t
    · exact Or.inl rfl
    · exact Or.inr (Or.inl rfl)
    · exact Or.inr (Or.inr rfl)
  · intro p hp
    rcases detectQueryTypes_eq p with h | ⟨items, hpeq, h2, h3⟩
    · exact h
    · rcases hp with rfl | ⟨items2, hpeq2, hv2⟩ | hno
      · exact absurd hpeq (by simp)
      · rw [hpeq2] at hpeq
        injection hpeq with hj
        injection hj with hi
        exact absurd (hi ▸ hv2) h3
      · exact absurd hpeq (hno items)

/-- Witness for C3: the parse-failure outcome concretely yields the default
tag set, which is non-empty. -/
theorem detectQueryTypes_fallback_spec_witness :
    detectQueryTypes none = [QueryType.document] ∧
    QueryType.document ∈ detectQueryTypes none :=
  ⟨detectQueryTypes_fallback_spec.2.2 none (Or.inl rfl),
   by
    have h := detectQueryTypes_fallback_spec.2.2 none (Or.inl rfl)
    rw [h]
    exact List.mem_singleton_self _⟩

/-- Claim C8: for every input chunk, `generateEmbeddings` wraps the result
of its single provider call in a one-element array whose element carries
the chunk's `pageContent` unchanged as `content`, the embedding produced by
that call, and the chunk's `metadata` unchanged. -/
theorem generateEmbeddings_single_element {ε : Type}
    (oracle : String → Except ε (List ℚ)) (chunk : Chunk) (v : List ℚ)
    (h : oracle chunk.pageContent = Except.ok v) :
    generateEmbeddings oracle chunk =
      Except.ok [{ content := chunk.pageContent, embedding := v,
                   metadata := chunk.metadata }] := by
  simp [generateEmbeddings, h]

/-- Witness for C8: a concrete chunk embedded through a concrete provider
outcome. -/
theorem generateEmbeddings_single_element_witness :
    generateEmbeddings (fun _ => (Except.ok [2] : Except Unit (List ℚ)))
      { pageContent := "hello",
        metadata := { pageNumber := 1, sectionLabel := none,
                      timestamp := none } } =
      Except.ok [{ content := "hello", embedding := [2],
                   metadata := { pageNumber := 1, sectionLabel := none,
                                 timestamp := none } }] :=
  generateEmbeddings_single_element (ε := Unit) _ _ _ rfl

/-- Claim C10: the chat `POST` handler reads
`messages[messages.length - 1].content` without a guard, so an empty
message list makes it throw a `TypeError` instead of returning a graceful
response. -/
theorem POST_empty_messages_throws (parseOutcome : String → Option Json)
    (repSearch : String → Except JsError (List RepResult))
    (docSearch : String → Except JsError (List ContentResult)) :
    POST parseOutcome repSearch docSearch [] =
      Except.error JsError.typeError := rfl

/-- Counterexample for C2: the classifier selects both entity types, the
representative retriever rejects while the document retriever succeeds,
and the whole request fails with the rejection (no response with the
surviving retriever's results is produced).  The bare `Promise.all` at
line 102 of the handler has no per-retriever catch or timeout. -/
theorem POST_one_retriever_failure_fails_request :
    POST
      (fun _ => some (Json.arr [Json.str "representative",
                               Json.str "document"]))
      (fun _ => Except.error JsError.providerFailure)
      (fun _ => Except.ok [sampleDoc])
      [{ role := "user", content := "Did MNA Y propose any bills?" }] =
      Except.error JsError.providerFailure := by
  rfl

/-- Claim C2 (amended): failure of any selected retriever is **not**
isolated: `Promise.all` propagates the rejection, the failed entity type
does not degrade to an empty result set, and the whole request fails
instead of producing a response from the surviving retrievers. -/
theorem gatherSearchResults_failure_propagates :
    (∀ (queryTypes : List QueryType)
        (docSearch : Except JsError (List ContentResult)) (e : JsError),
      queryTypes.contains QueryType.representative = true →
      gatherSearchResults queryTypes (Except.error e) docSearch =
        Except.error e) ∧
    (∀ (queryTypes : List QueryType) (reps : List RepResult) (e : JsError),
      (queryTypes.contains QueryType.bill ||
        queryTypes.contains QueryType.document) = true →
      gatherSearchResults queryTypes (Except.ok reps) (Except.error e) =
        Except.error e) := by
  constructor
  · intro queryTypes docSearch e h
    have hm : QueryType.representative ∈ queryTypes := by simpa using h
    simp [gatherSearchResults, hm, promiseAll, Except.map]
  · intro queryTypes reps e h
    have hd : QueryType.bill ∈ queryTypes ∨ QueryType.document ∈ queryTypes := by
      simpa using h
    by_cases hr : QueryType.representative ∈ queryTypes
    · simp [gatherSearchResults, hr, hd, promiseAll, Except.map]
    · simp [gatherSearchResults, hr, hd, promiseAll, Except.map]

/-- Witness for C2's amended theorem: both failure directions at concrete
selected tag sets. -/
theorem gatherSearchResults_failure_propagates_witness :
    gatherSearchResults [QueryType.representative]
      (Except.error JsError.providerFailure) (Except.ok [sampleDoc]) =
      Except.error JsError.providerFailure ∧
    gatherSearchResults [QueryType.document] (Except.ok [sampleRep])
      (Except.error JsError.providerFailure) =
      Except.error JsError.providerFailure :=
  ⟨gatherSearchResults_failure_propagates.1 [QueryType.representative]
      (Except.ok [sampleDoc]) JsError.providerFailure (by decide),
   gatherSearchResults_failure_propagates.2 [QueryType.document]
      [sampleRep] JsError.providerFailure (by decide)⟩

/-- Claim C9: a requested entity type whose retriever returns zero results
contributes no block at all to the grounding context, and when both entity
types return non-empty results their labeled blocks are joined with the
explicit provenance separator `"\n\n=== DIFFERENT SOURCE TYPE ===\n\n"`
(with one non-empty block, only that block appears, with no separator). -/
theorem contextString_blocks :
    (contextBlock (SearchOutcome.representative []) = none) ∧
    (contextBlock (SearchOutcome.document []) = none) ∧
    (∀ (reps : List RepResult) (docs : List ContentResult),
      reps ≠ [] → docs ≠ [] →
      contextString [SearchOutcome.representative reps,
                     SearchOutcome.document docs] =
        joinSep "\n\n" (reps.map formatRep) ++
        "\n\n=== DIFFERENT SOURCE TYPE ===\n\n" ++
        joinSep "\n\n" (docs.map formatDoc)) ∧
    (∀ (docs : List ContentResult), docs ≠ [] →
      contextString [SearchOutcome.representative [],
                     SearchOutcome.document docs] =
        joinSep "\n\n" (docs.map formatDoc)) := by
  refine ⟨rfl, rfl, ?_, ?_⟩
  · intro reps docs h1 h2
    have hp1 : 0 < reps.length := List.length_pos.mpr h1
    have hp2 : 0 < docs.length := List.length_pos.mpr h2
    have e1 : contextBlock (SearchOutcome.representative reps) =
        some (joinSep "\n\n" (reps.map formatRep)) := by
      simp [contextBlock, hp1]
    have e2 : contextBlock (SearchOutcome.document docs) =
        some (joinSep "\n\n" (docs.map formatDoc)) := by
      simp [contextBlock, hp2]
    have e3 : [SearchOutcome.representative reps,
               SearchOutcome.document docs].filterMap contextBlock =
        [joinSep "\n\n" (reps.map formatRep),
         joinSep "\n\n" (docs.map formatDoc)] := by
      rw [List.filterMap_cons, e1, List.filterMap_cons, e2]
      rfl
    rw [contextString, e3]
    rfl
  · intro docs h2
    have hp2 : 0 < docs.length := List.length_pos.mpr h2
    have e2 : contextBlock (SearchOutcome.document docs) =
        some (joinSep "\n\n" (docs.map formatDoc)) := by
      simp [contextBlock, hp2]
    have e3 : [SearchOutcome.representative [],
               SearchOutcome.document docs].filterMap contextBlock =
        [joinSep "\n\n" (docs.map formatDoc)] := by
      rw [List.filterMap_cons, List.filterMap_cons, e2]
      rfl
    rw [contextString, e3]
    rfl

/-- Witness for C9: two concrete non-empty result sets produce the two
labeled blocks joined with the provenance separator. -/
theorem contextString_blocks_witness :
    contextString [SearchOutcome.representative [sampleRep],
                   SearchOutcome.document [sampleDoc]] =
      joinSep "\n\n" ([sampleRep].map formatRep) ++
      "\n\n=== DIFFERENT SOURCE TYPE ===\n\n" ++
      joinSep "\n\n" ([sampleDoc].map formatDoc) :=
  contextString_blocks.2.2.1 [sampleRep] [sampleDoc]
    (List.cons_ne_nil _ _) (List.cons_ne_nil _ _)

/-- Interior tiling of the chunker: mapping `drop overlap` over all chunks
and concatenating yields the text with its first `overlap` characters
removed (each chunk contributes exactly its non-duplicated span). -/
theorem chunkGo_flatten_drop {α : Type} (chunkSize overlap : Nat)
    (hov : overlap < chunkSize) :
    ∀ (fuel : Nat) (text : List α), text.length ≤ fuel + chunkSize →
      ((chunkGo chunkSize overlap fuel text).map
        (List.drop overlap)).flatten = text.drop overlap := by
  intro fuel
  induction fuel with
  | zero => intro text _; simp [chunkGo]
  | succ n ih =>
      intro text hlen
      by_cases hle : text.length ≤ chunkSize
      · simp [chunkGo, hle]
      · have hstride : 1 ≤ chunkSize - overlap := by omega
        have hlen2 : (text.drop (chunkSize - overlap)).length ≤ n + chunkSize := by
          rw [List.length_drop]
          omega
        simp only [chunkGo, if_neg hle, List.map_cons, List.flatten_cons]
        rw [ih (text.drop (chunkSize - overlap)) hlen2]
        rw [List.drop_drop, Nat.sub_add_cancel (le_of_lt hov)]
        rw [List.drop_take]
        have hfin : List.drop (chunkSize - overlap) (List.drop overlap text) =
            List.drop chunkSize text := by
          rw [List.drop_drop]
          rw [Nat.add_sub_cancel' (le_of_lt hov)]
        rw [← hfin, List.take_append_drop]

/-- Claim C7 (spec-modelled chunker): for any document text, concatenating
the chunker's output chunks in order with the inter-chunk overlap spans
removed reconstructs the original text exactly. -/
theorem chunkText_tiling {α : Type} (chunkSize overlap : Nat)
    (text : List α) (hov : overlap < chunkSize) :
    dropOverlaps overlap (chunkText chunkSize overlap text) = text := by
  unfold chunkText
  by_cases hle : text.length ≤ chunkSize
  · cases hfuel : text.length with
    | zero => simp [chunkGo, dropOverlaps]
    | succ n =>
        simp [chunkGo, hle, dropOverlaps]
  · obtain ⟨n, hn⟩ : ∃ n, text.length = n + 1 := ⟨text.length - 1, by omega⟩
    have hstride : 1 ≤ chunkSize - overlap := by omega
    have hlen2 : (text.drop (chunkSize - overlap)).length ≤ n + chunkSize := by
      rw [List.length_drop]
      omega
    rw [hn]
    simp only [chunkGo, if_neg hle, dropOverlaps]
    rw [chunkGo_flatten_drop chunkSize overlap hov n
      (text.drop (chunkSize - overlap)) hlen2]
    rw [List.drop_drop, Nat.sub_add_cancel (le_of_lt hov),
      List.take_append_drop]

/-- Witness for C7: a concrete tiling run at the configured 1500/300
parameters. -/
theorem chunkText_tiling_witness :
    300 < 1500 ∧
    dropOverlaps 300 (chunkText 1500 300 (List.range 10)) = List.range 10 :=
  ⟨by decide, chunkText_tiling 1500 300 (List.range 10) (by decide)⟩

/-- The chunker ignores its fuel argument as long as the fuel dominates the
text length (the cut at each step removes at least one character). -/
theorem chunkGo_fuel_irrel {α : Type} (chunkSize overlap : Nat)
    (hso : 1 ≤ chunkSize - overlap) :
    ∀ (f1 f2 : Nat) (text : List α), text.length ≤ f1 + chunkSize →
      text.length ≤ f2 + chunkSize →
      chunkGo chunkSize overlap f1 text = chunkGo chunkSize overlap f2 text := by
  intro f1
  induction f1 with
  | zero =>
      intro f2 text h1 h2
      have hle : text.length ≤ chunkSize := by omega
      cases f2 with
      | zero => rfl
      | succ m => simp [chunkGo, hle]
  | succ n ih =>
      intro f2 text h1 h2
      by_cases hle : text.length ≤ chunkSize
      · cases f2 with
        | zero => simp [chunkGo, hle]
        | succ m => simp [chunkGo, hle]
      · obtain ⟨m, rfl⟩ : ∃ m, f2 = m + 1 := ⟨f2 - 1, by omega⟩
        simp only [chunkGo, if_neg hle]
        congr 1
        exact ih m (text.drop (chunkSize - overlap))
          (by rw [List.length_drop]; omega)
          (by rw [List.length_drop]; omega)

/-- Recursive unfolding of `chunkText` on a text longer than one chunk. -/
theorem chunkText_unfold {α : Type} (chunkSize overlap : Nat)
    (text : List α) (hso : 1 ≤ chunkSize - overlap)
    (hgt : ¬ text.length ≤ chunkSize) :
    chunkText chunkSize overlap text =
      text.take chunkSize ::
        chunkText chunkSize overlap (text.drop (chunkSize - overlap)) := by
  unfold chunkText
  obtain ⟨n, hn⟩ : ∃ n, text.length = n + 1 := ⟨text.length - 1, by omega⟩
  rw [hn]
  simp only [chunkGo, if_neg hgt]
  congr 1
  exact chunkGo_fuel_irrel chunkSize overlap hso n
    (text.drop (chunkSize - overlap)).length (text.drop (chunkSize - overlap))
    (by rw [List.length_drop]; omega) (by omega)

/-- A text no longer than one chunk yields exactly one chunk. -/
theorem chunkText_single {α : Type} (chunkSize overlap : Nat)
    (text : List α) (hle : text.length ≤ chunkSize) :
    chunkText chunkSize overlap text = [text] := by
  unfold chunkText
  cases hn : text.length with
  | zero => rfl
  | succ n => simp [chunkGo, hle]

/-- Closed form of the 1500/300 chunker on any 4000-character text: four
fixed-width cuts starting at offsets 0, 1200, 2400 and 3600. -/
theorem chunkText_4000_eq {α : Type} (text : List α)
    (h : text.length = 4000) :
    chunkText 1500 300 text =
      [text.take 1500, (text.drop 1200).take 1500,
       (text.drop 2400).take 1500, text.drop 3600] := by
  have h1 : (text.drop 1200).length = 2800 := by rw [List.length_drop, h]
  have h2 : (text.drop 2400).length = 1600 := by rw [List.length_drop, h]
  have h3 : (text.drop 3600).length = 400 := by rw [List.length_drop, h]
  have e12 : (1500 - 300 : Nat) = 1200 := by norm_num
  rw [chunkText_unfold 1500 300 text (by norm_num) (by omega), e12]
  rw [chunkText_unfold 1500 300 (text.drop 1200) (by norm_num) (by omega),
    e12, List.drop_drop]
  norm_num
  rw [chunkText_unfold 1500 300 (text.drop 2400) (by norm_num) (by omega),
    e12, List.drop_drop]
  norm_num
  rw [chunkText_single 1500 300 (text.drop 3600) (by omega)]

/-- Counterexample for C6: a 4000-character text (here `List.range 4000`,
which has no detectable separators) does not chunk into 3 chunks at
1500/300 — it chunks into 4. -/
theorem chunkText_4000_not_three :
    (chunkText 1500 300 (List.range 4000)).length ≠ 3 := by
  rw [chunkText_4000_eq (List.range 4000) (by simp)]
  simp

/-- Claim C6 (amended): chunking a 4000-character document text with chunk
size 1500 and overlap 300 produces exactly **4** chunks, each of length at
most 1500, and every consecutive pair of chunks overlaps by exactly 300
characters (the last 300 characters of each chunk are the first 300 of the
next). -/
theorem chunkText_4000_spec {α : Type} (text : List α)
    (h : text.length = 4000) :
    (chunkText 1500 300 text).length = 4 ∧
    (∀ c ∈ chunkText 1500 300 text, c.length ≤ 1500) ∧
    (∀ p ∈ (chunkText 1500 300 text).zip (chunkText 1500 300 text).tail,
      List.drop (p.1.length - 300) p.1 = List.take 300 p.2) := by
  have h1 : (text.drop 1200).length = 2800 := by rw [List.length_drop, h]
  have h2 : (text.drop 2400).length = 1600 := by rw [List.length_drop, h]
  have h3 : (text.drop 3600).length = 400 := by rw [List.length_drop, h]
  rw [chunkText_4000_eq text h]
  refine ⟨rfl, ?_, ?_⟩
  · intro c hc
    simp only [List.mem_cons, List.not_mem_nil, or_false] at hc
    rcases hc with rfl | rfl | rfl | rfl
    · exact List.length_take_le _ _
    · exact List.length_take_le _ _
    · exact List.length_take_le _ _
    · omega
  · intro p hp
    simp only [List.tail_cons, List.zip_cons_cons, List.zip_nil_right,
      List.mem_cons, List.not_mem_nil, or_false] at hp
    have hl1 : (text.take 1500).length = 1500 := by
      rw [List.length_take]; omega
    have hl2 : ((text.drop 1200).take 1500).length = 1500 := by
      rw [List.length_take]; omega
    have hl3 : ((text.drop 2400).take 1500).length = 1500 := by
      rw [List.length_take]; omega
    rcases hp with rfl | rfl | rfl
    · rw [hl1]
      norm_num
      rw [List.drop_take, List.take_take]
      norm_num
    · rw [hl2]
      norm_num
      rw [List.drop_take, List.take_take, List.drop_drop]
      norm_num
    · rw [hl3]
      norm_num
      rw [List.drop_take, List.drop_drop]

/-- Witness for C6's amended theorem: a concrete 4000-character text. -/
theorem chunkText_4000_spec_witness :
    (chunkText 1500 300 (List.range 4000)).length = 4 :=
  (chunkText_4000_spec (List.range 4000) (by simp)).1

/-- Membership in an indexed list pins the element to its position. -/
theorem withIdxFrom_mem {α : Type} :
    ∀ (l : List α) (n i : Nat) (a : α), (i, a) ∈ withIdxFrom n l →
      ∃ j, i = n + j ∧ l[j]? = some a := by
  intro l
  induction l with
  | nil => intro n i a h; simp [withIdxFrom] at h
  | cons b t ih =>
      intro n i a h
      simp only [withIdxFrom, List.mem_cons] at h
      rcases h with h | h
      · have hi : i = n := congrArg Prod.fst h
        have ha : a = b := congrArg Prod.snd h
        exact ⟨0, by omega, by simp [ha]⟩
      · obtain ⟨j, hj1, hj2⟩ := ih (n + 1) i a h
        exact ⟨j + 1, by omega, by simpa [List.getElem?_cons_succ] using hj2⟩

/-- Membership in `withIdx` pins the element to its insertion position. -/
theorem withIdx_mem {α : Type} (l : List α) (i : Nat) (a : α)
    (h : (i, a) ∈ withIdx l) : l[i]? = some a := by
  obtain ⟨j, hj1, hj2⟩ := withIdxFrom_mem l 0 i a h
  rw [hj1]
  simpa using hj2

/-- Every ranked retrieval row comes from the store at its recorded
insertion position, carries similarity `1 - dist(embedding, query)`, and is
strictly above the threshold. -/
theorem rankedRows_mem {α : Type} (emb : α → List ℚ)
    (dist : List ℚ → List ℚ → ℚ) (q : List ℚ) (store : List α) (θ : ℚ)
    (k : Nat) (t : Nat × α × ℚ) (h : t ∈ rankedRows emb dist q store θ k) :
    store[t.1]? = some t.2.1 ∧ t.2.2 = 1 - dist (emb t.2.1) q ∧ θ < t.2.2 := by
  unfold rankedRows at h
  have h1 := List.mem_of_mem_take h
  have h2 : t ∈ (scoredRows emb dist q store).filter
      fun u => decide (θ < u.2.2) := (List.perm_insertionSort _ _).subset h1
  obtain ⟨h3, h4⟩ := List.mem_filter.mp h2
  have hθ : θ < t.2.2 := of_decide_eq_true h4
  obtain ⟨p, hp, hpt⟩ := List.mem_map.mp h3
  obtain ⟨i, a⟩ := p
  subst hpt
  exact ⟨withIdx_mem store i a hp, rfl, hθ⟩

/-- Ranked retrieval returns at most `k` rows. -/
theorem rankedRows_length_le {α : Type} (emb : α → List ℚ)
    (dist : List ℚ → List ℚ → ℚ) (q : List ℚ) (store : List α) (θ : ℚ)
    (k : Nat) : (rankedRows emb dist q store θ k).length ≤ k :=
  List.length_take_le _ _

/-- Ranked retrieval output is sorted: descending similarity, ties in
insertion order. -/
theorem rankedRows_sorted {α : Type} (emb : α → List ℚ)
    (dist : List ℚ → List ℚ → ℚ) (q : List ℚ) (store : List α) (θ : ℚ)
    (k : Nat) : List.Sorted rankRel (rankedRows emb dist q store θ k) :=
  List.Pairwise.sublist (List.take_sublist _ _)
    (List.sorted_insertionSort rankRel _)

/-- Claim C4: `findRelevantContent` returns at most 6 records, each with
similarity strictly above the 0.75 document threshold;
`findRelevantRepresentatives` returns at most 5 records, each with
similarity strictly above the 0.70 representative threshold (so no record
is below its entity type's configured minimum); and a query may
legitimately return zero results for an entity type. -/
theorem retrieval_threshold_and_limit :
    (∀ (ε : Type) (oracle : String → Except ε (List ℚ))
        (dist : List ℚ → List ℚ → ℚ) (docs : List DocumentRow)
        (store : List EmbeddingRow) (q : String) (res : List ContentResult),
      findRelevantContent oracle dist docs store q = Except.ok res →
      res.length ≤ 6 ∧ ∀ r ∈ res, (3/4 : ℚ) < r.similarity) ∧
    (∀ (ε : Type) (oracle : String → Except ε (List ℚ))
        (dist : List ℚ → List ℚ → ℚ) (reps : List RepresentativeRow)
        (store : List RepEmbeddingRow) (q : String) (res : List RepResult),
      findRelevantRepresentatives oracle dist reps store q = Except.ok res →
      res.length ≤ 5 ∧ ∀ r ∈ res, (7/10 : ℚ) < r.similarity) ∧
    (∀ (ε : Type) (oracle : String → Except ε (List ℚ))
        (dist : List ℚ → List ℚ → ℚ) (docs : List DocumentRow)
        (store : List EmbeddingRow) (q : String) (v : List ℚ),
      oracle q = Except.ok v →
      (∀ r ∈ store, 1 - dist r.embedding v ≤ 3/4) →
      findRelevantContent oracle dist docs store q = Except.ok []) := by
  refine ⟨?_, ?_, ?_⟩
  · intro ε oracle dist docs store q res h
    unfold findRelevantContent at h
    cases ho : generateEmbeddings oracle
        { pageContent := q,
          metadata := { pageNumber := 1, sectionLabel := none,
                        timestamp := none } } with
    | error e => rw [ho] at h; cases h
    | ok embedded =>
        rw [ho] at h
        simp only [Except.ok.injEq] at h
        subst h
        constructor
        · rw [List.length_map]
          exact rankedRows_length_le _ _ _ _ _ _
        · intro r hr
          obtain ⟨t, ht, hrt⟩ := List.mem_map.mp hr
          have := (rankedRows_mem _ _ _ _ _ _ t ht).2.2
          rw [← hrt]
          exact this
  · intro ε oracle dist reps store q res h
    unfold findRelevantRepresentatives at h
    cases ho : generateEmbeddings oracle
        { pageContent := q,
          metadata := { pageNumber := 1, sectionLabel := none,
                        timestamp := none } } with
    | error e => rw [ho] at h; cases h
    | ok embedded =>
        rw [ho] at h
        simp only [Except.ok.injEq] at h
        subst h
        constructor
        · rw [List.length_map]
          exact rankedRows_length_le _ _ _ _ _ _
        · intro r hr
          obtain ⟨t, ht, hrt⟩ := List.mem_map.mp hr
          have := (rankedRows_mem _ _ _ _ _ _ t ht).2.2
          rw [← hrt]
          exact this
  · intro ε oracle dist docs store q v hov hbelow
    unfold findRelevantContent
    simp only [generateEmbeddings, hov, List.map_cons, List.map_nil,
      List.headI]
    have hf : (scoredRows EmbeddingRow.embedding dist v store).filter
        (fun t => decide ((3/4 : ℚ) < t.2.2)) = [] := by
      rw [List.filter_eq_nil_iff]
      intro t ht
      obtain ⟨p, hp, hpt⟩ := List.mem_map.mp ht
      obtain ⟨i, a⟩ := p
      subst hpt
      have ha : a ∈ store := List.getElem?_mem (withIdx_mem store i a hp)
      simp only [decide_eq_true_eq]
      exact not_lt.mpr (hbelow a ha)
    unfold rankedRows
    rw [hf]
    rfl

/-- Witness for C4: a concrete similarity run over a one-row store (both
entity types), plus a concrete zero-result run over a one-row store whose
only record scores below the 0.75 threshold. -/
theorem retrieval_threshold_and_limit_witness :
    ([contentRes0].length ≤ 6 ∧ (3/4 : ℚ) < contentRes0.similarity) ∧
    ([repRes0].length ≤ 5 ∧ (7/10 : ℚ) < repRes0.similarity) ∧
    findRelevantContent okOracle1 dist1 [] [embRow0] "q" = Except.ok [] := by
  have h1 : findRelevantContent okOracle1 dist0 [] [embRow0] "q" =
      Except.ok [contentRes0] := by
    unfold findRelevantContent generateEmbeddings okOracle1
    norm_num [rankedRows, scoredRows, withIdx, withIdxFrom, dist0,
      List.insertionSort, List.orderedInsert, toContentResult, contentRes0,
      embRow0]
  have h2 : findRelevantRepresentatives okOracle1 dist0 [] [repEmbRow0] "q" =
      Except.ok [repRes0] := by
    unfold findRelevantRepresentatives generateEmbeddings okOracle1
    norm_num [rankedRows, scoredRows, withIdx, withIdxFrom, dist0,
      List.insertionSort, List.orderedInsert, toRepResult, repRes0,
      repEmbRow0]
  have hc := retrieval_threshold_and_limit.1 Unit okOracle1 dist0 []
    [embRow0] "q" [contentRes0] h1
  have hr := retrieval_threshold_and_limit.2.1 Unit okOracle1 dist0 []
    [repEmbRow0] "q" [repRes0] h2
  have hbelow : ∀ r ∈ [embRow0], (1 : ℚ) - dist1 r.embedding [1] ≤ 3/4 := by
    intro r hrr
    rw [List.mem_singleton.mp hrr]
    norm_num [dist1]
  exact ⟨⟨hc.1, hc.2 contentRes0 (List.mem_singleton_self _)⟩,
    ⟨hr.1, hr.2 repRes0 (List.mem_singleton_self _)⟩,
    retrieval_threshold_and_limit.2.2 Unit okOracle1 dist1 [] [embRow0] "q"
      [1] rfl hbelow⟩

/-- Claim C5: retrieval results are ordered by descending similarity, where
each row's similarity is `1 - dist(embedding, query)` (one minus the cosine
distance); rows with equal similarity appear in insertion order (the
`rankRel` ordering); and `findRelevantContent` returns exactly the ranked
rows projected to output columns. -/
theorem retrieval_ranking_order :
    (∀ (α : Type) (emb : α → List ℚ) (dist : List ℚ → List ℚ → ℚ)
        (q : List ℚ) (store : List α) (θ : ℚ) (k : Nat),
      List.Sorted rankRel (rankedRows emb dist q store θ k)) ∧
    (∀ (α : Type) (emb : α → List ℚ) (dist : List ℚ → List ℚ → ℚ)
        (q : List ℚ) (store : List α) (θ : ℚ) (k : Nat) (t : Nat × α × ℚ),
      t ∈ rankedRows emb dist q store θ k →
      store[t.1]? = some t.2.1 ∧ t.2.2 = 1 - dist (emb t.2.1) q) ∧
    (∀ (ε : Type) (oracle : String → Except ε (List ℚ))
        (dist : List ℚ → List ℚ → ℚ) (docs : List DocumentRow)
        (store : List EmbeddingRow) (q : String) (v : List ℚ),
      oracle q = Except.ok v →
      findRelevantContent oracle dist docs store q =
        Except.ok ((rankedRows EmbeddingRow.embedding dist v store (3/4)
          6).map (toContentResult docs))) := by
  refine ⟨?_, ?_, ?_⟩
  · intro α emb dist q store θ k
    exact rankedRows_sorted emb dist q store θ k
  · intro α emb dist q store θ k t ht
    have h := rankedRows_mem emb dist q store θ k t ht
    exact ⟨h.1, h.2.1⟩
  · intro ε oracle dist docs store q v hov
    unfold findRelevantContent
    simp [generateEmbeddings, hov]

/-- Witness for C5: membership and the projection equation at concrete
inputs. -/
theorem retrieval_ranking_order_witness :
    (([embRow0] : List EmbeddingRow)[(0 : Nat)]? = some embRow0 ∧
      (1 - dist0 (EmbeddingRow.embedding embRow0) [1] : ℚ) =
        1 - dist0 (EmbeddingRow.embedding embRow0) [1]) ∧
    findRelevantContent okOracle1 dist0 [] [embRow0] "q" =
      Except.ok ((rankedRows EmbeddingRow.embedding dist0 [1] [embRow0]
        (3/4) 6).map (toContentResult [])) := by
  have hm : ((0 : Nat), embRow0,
      (1 - dist0 (EmbeddingRow.embedding embRow0) [1] : ℚ)) ∈
      rankedRows EmbeddingRow.embedding dist0 [1] [embRow0] (3/4) 6 := by
    norm_num [rankedRows, scoredRows, withIdx, withIdxFrom, dist0,
      List.insertionSort, List.orderedInsert]
  exact ⟨retrieval_ranking_order.2.1 EmbeddingRow EmbeddingRow.embedding
      dist0 [1] [embRow0] (3/4) 6 _ hm,
    retrieval_ranking_order.2.2 Unit okOracle1 dist0 [] [embRow0] "q" [1]
      rfl⟩

/-- One chunker step on a uniform text longer than one chunk: a full-size
chunk comes off the front and 1200 characters are consumed. -/
theorem chunkText_replicate_step (c : Char) (n : Nat) (h : 1500 < n) :
    chunkText 1500 300 (List.replicate n c) =
      List.replicate 1500 c ::
        chunkText 1500 300 (List.replicate (n - 1200) c) := by
  rw [chunkText_unfold 1500 300 (List.replicate n c) (by norm_num)
    (by rw [List.length_replicate]; omega)]
  rw [List.take_replicate, List.drop_replicate]
  have e1 : (1500 : Nat) ⊓ n = 1500 := min_eq_left (le_of_lt h)
  have e2 : n - (1500 - 300) = n - 1200 := by norm_num
  rw [e1, e2]

/-- The 6500-character uniform text chunks into five full-size chunks and
one 500-character chunk. -/
theorem chunkStrings_failText :
    chunkStrings failText = [s1500, s1500, s1500, s1500, s1500, s500] := by
  have hdata : failText.data = List.replicate 6500 'a' := rfl
  unfold chunkStrings
  rw [hdata]
  rw [chunkText_replicate_step 'a' 6500 (by norm_num)]
  norm_num
  rw [chunkText_replicate_step 'a' 5300 (by norm_num)]
  norm_num
  rw [chunkText_replicate_step 'a' 4100 (by norm_num)]
  norm_num
  rw [chunkText_replicate_step 'a' 2900 (by norm_num)]
  norm_num
  rw [chunkText_replicate_step 'a' 1700 (by norm_num)]
  norm_num
  rw [chunkText_single 1500 300 (List.replicate 500 'a')
    (by rw [List.length_replicate]; norm_num)]
  exact ⟨rfl, rfl⟩

/-- Length of the full-size chunk string. -/
theorem s1500_length : s1500.length = 1500 := by
  have h : s1500.length = (List.replicate 1500 'a').length := rfl
  rw [h, List.length_replicate]

/-- Length of the short final chunk string. -/
theorem s500_length : s500.length = 500 := by
  have h : s500.length = (List.replicate 500 'a').length := rfl
  rw [h, List.length_replicate]

/-- The failing oracle accepts every full-size chunk. -/
theorem failOracle_s1500 : failOracle s1500 = Except.ok [1] := by
  simp [failOracle, s1500_length]

/-- The failing oracle rejects the short final chunk. -/
theorem failOracle_s500 : failOracle s500 = Except.error () := by
  simp [failOracle, s500_length]

/-- The embedding phase over the chunks of `failText` rejects: the first
batch of five chunks succeeds, the second batch's single chunk fails. -/
theorem embedPhase_failText (sectionOf timestampOf : String → Option String) :
    embedPhase failOracle sectionOf timestampOf
      [s1500, s1500, s1500, s1500, s1500, s500] = Except.error () := by
  have hb : batched 5 [s1500, s1500, s1500, s1500, s1500, s500] =
      [[s1500, s1500, s1500, s1500, s1500], [s500]] := rfl
  have he1 : embedChunk failOracle sectionOf timestampOf s1500 =
      Except.ok [⟨s1500, [1], ⟨1, sectionOf s1500, timestampOf s1500⟩⟩] := by
    simp [embedChunk, generateEmbeddings, failOracle_s1500]
  have he2 : embedChunk failOracle sectionOf timestampOf s500 =
      Except.error () := by
    simp [embedChunk, generateEmbeddings, failOracle_s500]
  unfold embedPhase
  rw [hb]
  simp only [embedPhase.go, List.map_cons, List.map_nil, he1, he2,
    promiseAll]

/-- Counterexample for C1: ingesting `failText` (6500 characters, six
chunks, two embedding batches) with a provider that fails on the second
batch aborts with an error, yet the `documents` row persists — it was
inserted before the embedding phase — while no `embeddings` rows exist.
The claim's "no Document row ... exists afterwards" is false on the code. -/
theorem ingestDocument_embed_failure_counterexample :
    ingestDocument failOracle (fun _ => none) (fun _ => none) "doc0"
        (fun n => "emb" ++ toString n) "Finance Bill 2024" "bill"
        "finance-bill.pdf" failText false emptyDb =
      ({ documents := [⟨"doc0", "Finance Bill 2024", "bill", failText,
                         "finance-bill.pdf"⟩],
         chunkEmbeddings := [] }, Except.error ()) ∧
    (ingestDocument failOracle (fun _ => none) (fun _ => none) "doc0"
        (fun n => "emb" ++ toString n) "Finance Bill 2024" "bill"
        "finance-bill.pdf" failText false
        emptyDb).1.documents ≠ [] := by
  have hh : ingestDocument failOracle (fun _ => none) (fun _ => none) "doc0"
      (fun n => "emb" ++ toString n) "Finance Bill 2024" "bill"
      "finance-bill.pdf" failText false emptyDb =
      ({ documents := [⟨"doc0", "Finance Bill 2024", "bill", failText,
                         "finance-bill.pdf"⟩],
         chunkEmbeddings := [] }, Except.error ()) := by
    simp [ingestDocument, chunkStrings_failText, embedPhase_failText,
      emptyDb, checkIfProcessed]
  refine ⟨hh, ?_⟩
  rw [hh]
  simp

/-- Claim C1 (amended): if an embedding-provider call fails anywhere in the
embedding phase, no Chunk-Embedding rows are persisted and the error is
surfaced, but the Document row — inserted before chunking and embedding —
remains in the database; afterwards `checkIfProcessed` reports the file as
already present, so a re-run does not start from a clean slate. -/
theorem ingestDocument_embed_failure_state {ε : Type}
    (oracle : String → Except ε (List ℚ))
    (sectionOf timestampOf : String → Option String) (docId : String)
    (embId : Nat → String) (title dtype fileName text : String)
    (st : DbState) (e : ε)
    (h : embedPhase oracle sectionOf timestampOf (chunkStrings text) =
      Except.error e) :
    ingestDocument oracle sectionOf timestampOf docId embId title dtype
        fileName text false st =
      ({ documents := st.documents ++
            [⟨docId, title, dtype, text, fileName⟩],
         chunkEmbeddings := st.chunkEmbeddings }, Except.error e) ∧
    checkIfProcessed (ingestDocument oracle sectionOf timestampOf docId
        embId title dtype fileName text false st).1 fileName = true := by
  have hh : ingestDocument oracle sectionOf timestampOf docId embId title
      dtype fileName text false st =
      ({ documents := st.documents ++
            [⟨docId, title, dtype, text, fileName⟩],
         chunkEmbeddings := st.chunkEmbeddings }, Except.error e) := by
    simp [ingestDocument, h]
  refine ⟨hh, ?_⟩
  rw [hh]
  simp [checkIfProcessed, List.any_append]

/-- Witness for C1's amended theorem: a concrete failing ingestion run
(provider rejects every call) leaves exactly the document row behind. -/
theorem ingestDocument_embed_failure_state_witness :
    ingestDocument errOracle (fun _ => none) (fun _ => none) "d0"
        (fun _ => "e") "T" "bill" "f.pdf" "abc" false emptyDb =
      ({ documents := emptyDb.documents ++
            [⟨"d0", "T", "bill", "abc", "f.pdf"⟩],
         chunkEmbeddings := emptyDb.chunkEmbeddings }, Except.error ()) ∧
    checkIfProcessed (ingestDocument errOracle (fun _ => none)
        (fun _ => none) "d0" (fun _ => "e") "T" "bill" "f.pdf" "abc" false
        emptyDb).1 "f.pdf" = true :=
  ingestDocument_embed_failure_state errOracle (fun _ => none)
    (fun _ => none) "d0" (fun _ => "e") "T" "bill" "f.pdf" "abc" emptyDb ()
    rfl
